import Mathlib

/-!
Verification of the data-ingestion webhook relay against its specification.

This file shallowly embeds the Python sources (`app.py`, `pr_uploader.py`,
`prow_crawler.py`) into Lean.  Pure computations become Lean functions;
side effects (GCS downloads, HTTP calls, `time.sleep`, `breakpoint()`) are
made explicit as an `Effect` trace that each embedded function returns
together with its result; raised Python exceptions become `Except PyError`
results; external collaborators (the GCS client, the Logilica HTTP API,
the HMAC primitive) are passed in as oracles.
-/

namespace DataIngestion

/-- Python exceptions that the embedded code can raise. -/
inductive PyError
  | valueError (msg : String)
  | requestError (msg : String)
  | typeError (msg : String)
  | indexError (msg : String)
  | gcsError (msg : String)
  /-- Marks source behavior deliberately left outside this embedding
  (the `check_run` branch of the webhook handler, lines 152-245 of
  `app.py`); no theorem below depends on it. -/
  | notModelled (what : String)
deriving DecidableEq, Repr

/-- `triggeredBy` object of the Logilica upload payload (app.py lines 319-324). -/
structure TriggeredBy where
  name : String
  email : String
  accountId : String
  lastActivity : Int
deriving DecidableEq, Repr

/-- `stages[0].jobs[0]` object of the upload payload (app.py lines 341-347). -/
structure JobObj where
  name : String
  startedAt : Int
  completedAt : Int
  status : String
  conclusion : String
deriving DecidableEq, Repr

/-- `stages[0]` object of the upload payload (app.py lines 332-349). -/
structure StageObj where
  name : String
  id : String
  url : String
  startedAt : Int
  completedAt : Int
  status : String
  conclusion : String
  jobs : List JobObj
deriving DecidableEq, Repr

/-- Top-level build object of the upload payload (app.py lines 311-351). -/
structure BuildObj where
  origin : String
  originalID : String
  name : String
  url : String
  startedAt : Int
  createdAt : Int
  completedAt : Int
  triggeredBy : TriggeredBy
  status : String
  conclusion : String
  repoUrl : String
  commit : String
  pullRequestUrls : List String
  isDeployment : Bool
  stages : List StageObj
deriving DecidableEq, Repr

/-- Observable side effects of the embedded code, in program order. -/
inductive Effect
  /-- A call of `verify_signature` from the webhook handler. -/
  | verifySig
  /-- The `breakpoint()` debugger trap (app.py line 278). -/
  | breakpointHit
  /-- A GCS object download: `download_single_file_from_gcs(bucket, path)`. -/
  | gcsFetch (bucket : String) (path : String)
  /-- `requests.get(url)`. -/
  | httpGet (url : String)
  /-- `requests.post(url, json=body)`. -/
  | httpPost (url : String) (body : List BuildObj)
  /-- `time.sleep(seconds)`. -/
  | sleep (seconds : Nat)
deriving DecidableEq, Repr

def Effect.isHttpPost : Effect → Bool
  | .httpPost _ _ => true
  | _ => false

def Effect.isGcsFetch : Effect → Bool
  | .gcsFetch _ _ => true
  | _ => false

/-! ### Python string helpers

Embeddings of the Python `str` operations the sources use. -/

/-- Python truthiness of an optional string (`None` and `""` are falsy). -/
def pyTruthyOptStr : Option String → Bool
  | none => false
  | some s => !s.isEmpty

/-- ASCII lower-casing of one character, as Python `str.lower` acts on ASCII. -/
def pyToLower (c : Char) : Char :=
  if 65 ≤ c.toNat ∧ c.toNat ≤ 90 then Char.ofNat (c.toNat + 32) else c

/-- ASCII upper-casing of one character, as Python `str.upper` acts on ASCII. -/
def pyToUpper (c : Char) : Char :=
  if 97 ≤ c.toNat ∧ c.toNat ≤ 122 then Char.ofNat (c.toNat - 32) else c

/-- Python `str.lower` (on the ASCII strings the program handles). -/
def pyLowerStr (s : String) : String := String.mk (s.data.map pyToLower)

/-- Python `str.capitalize`: first character upper-cased, the rest lower-cased
(app.py lines 326, 339, 346 apply it to `conclusion`). -/
def pyCapitalize (s : String) : String :=
  match s.data with
  | [] => ""
  | c :: cs => String.mk (pyToUpper c :: cs.map pyToLower)

/-- Worker for `splitChars`: scans `l` with `fuel ≥ l.length`, accumulating
the current (reversed) chunk in `acc` and starting a new chunk at every
occurrence of the separator `sep`. -/
def splitCharsGo (sep : List Char) : Nat → List Char → List Char → List (List Char)
  | _, [], acc => [acc.reverse]
  | 0, l, acc => [acc.reverse ++ l]
  | fuel + 1, c :: rest, acc =>
    if sep ≠ [] ∧ sep.isPrefixOf (c :: rest) then
      acc.reverse :: splitCharsGo sep fuel ((c :: rest).drop sep.length) []
    else
      splitCharsGo sep fuel rest (c :: acc)

/-- Split a character list on every occurrence of the (nonempty) separator,
with Python `str.split(sep)` semantics: `"a//b" → ["a", "", "b"]`,
separators at either end yield empty chunks, and a string not containing
the separator yields the one-element list of itself. -/
def splitChars (sep l : List Char) : List (List Char) :=
  splitCharsGo sep l.length l []

/-- Python `s.split(sep)` for a nonempty separator. -/
def pySplit (s sep : String) : List String :=
  (splitChars sep.data s.data).map String.mk

/-- Python `s.split(sep)[-1]`: the part after the last occurrence of `sep`
(the whole string when `sep` does not occur). -/
def pySplitLast (s sep : String) : String :=
  (pySplit s sep).getLast?.getD s

/-- Join chunks with the separator between them (the inverse of
`splitChars`, used to rebuild the tail of a maxsplit-1 split). -/
def joinSep (sep : List Char) : List (List Char) → List Char
  | [] => []
  | [x] => x
  | x :: xs => x ++ sep ++ joinSep sep xs

/-- Python `s.split(sep, 1)[1]`: everything after the first occurrence of
`sep`, or `none` when `sep` does not occur (where Python raises IndexError). -/
def pySplitOnce1 (s sep : String) : Option String :=
  match splitChars sep.data s.data with
  | [] => none
  | [_] => none
  | _ :: rest => some (String.mk (joinSep sep.data rest))

/-- Python `s.split(sep, 1)[0]`: the part before the first occurrence of `sep`. -/
def pySplitOnce0 (s sep : String) : String :=
  ((pySplit s sep).headD s)

/-- Python `sep in s` substring test (for nonempty `sep`, `sep` occurs in
`s` iff splitting on it yields more than one part). -/
def pyContains (s sep : String) : Bool :=
  (pySplit s sep).length != 1

/-! ### Signature verifier (`verify_signature`, app.py lines 34-51)

The HMAC-SHA1 primitive (`hmac.new(...).hexdigest()`) is an external
collaborator, passed in as `hm : String → List Nat → String` mapping the
secret and the raw request bytes to a hex digest.  CPython's
`hmac.compare_digest` on two `str` arguments requires both to be ASCII:
it raises `TypeError` otherwise, and is otherwise (constant-time)
equality; the constant-time property has no functional content, but the
TypeError path does and is modelled. -/

/-- Whether every character of the string is ASCII (codepoint below 128). -/
def isAsciiStr (s : String) : Bool := s.data.all (fun c => c.toNat < 128)

def compareDigestTypeErrorMsg : String :=
  "comparing strings with non-ASCII characters is not supported"

/-- CPython `hmac.compare_digest` on two `str` arguments: `TypeError` when
either argument contains a non-ASCII character, equality otherwise. -/
def compare_digest (a b : String) : Except PyError Bool :=
  if isAsciiStr a && isAsciiStr b then .ok (a == b)
  else .error (.typeError compareDigestTypeErrorMsg)

/-- `verify_signature` (app.py lines 34-51).  Returns `Except.ok` of the
Boolean result on the return paths, and `Except.error` for the
`TypeError` that `hmac.compare_digest` raises on a non-ASCII argument
(the line-42 `ValueError` from tuple unpacking is caught by the source
itself and yields `False`). -/
def verify_signature (hm : String → List Nat → String) (secret : String)
    (payload : List Nat) (header_signature : Option String) :
    Except PyError Bool :=
  match header_signature with
  | none => .ok false
  | some h =>
    match pySplit h "=" with
    | [sha_name, signature] =>
      if sha_name ≠ "sha1" then .ok false
      else compare_digest (hm secret payload) signature
    | _ => .ok false

/-! ### Upload payload builder (app.py lines 309-352) -/

/-- The eleven parameters of `upload_ci_build_data` (app.py lines 265-276). -/
structure UploadArgs where
  details_url : String
  conclusion : String
  started_at_epoch : Int
  completed_at_epoch : Int
  repo_full_name : String
  commit_sha : String
  triggered_name : String
  triggered_email : String
  triggered_id : String
  original_id : String
  name_of_payload : String
deriving DecidableEq, Repr

/-- The `payload` list built in `upload_ci_build_data` (app.py lines 310-352),
field by field. -/
def build_upload_payload (a : UploadArgs) : List BuildObj :=
  [{ origin := "OpenShift_CI"
     originalID := a.original_id
     name := a.name_of_payload
     url := a.details_url
     startedAt := a.started_at_epoch
     createdAt := a.started_at_epoch
     completedAt := a.completed_at_epoch
     triggeredBy :=
       { name := a.triggered_name
         email := a.triggered_email
         accountId := a.triggered_id
         lastActivity := 1 }
     status := "Completed"
     conclusion := pyCapitalize a.conclusion
     repoUrl := "https://github.com/" ++ a.repo_full_name
     commit := a.commit_sha
     pullRequestUrls := [a.details_url]
     isDeployment := true
     stages :=
       [{ name := a.name_of_payload
          id := a.original_id
          url := a.details_url
          startedAt := a.started_at_epoch
          completedAt := a.completed_at_epoch
          status := "Completed"
          conclusion := pyCapitalize a.conclusion
          jobs :=
            [{ name := a.name_of_payload
               startedAt := a.started_at_epoch
               completedAt := a.completed_at_epoch
               status := "Completed"
               conclusion := pyCapitalize a.conclusion }] }] }]

/-! ### Retrying uploader (`upload_ci_build_data`, app.py lines 264-363) -/

/-- One entry of the Logilica `GET /repositories` listing. -/
structure RepoEntry where
  id : String
  name : String
deriving DecidableEq, Repr

/-- Outcomes of the two Logilica HTTP calls made by one upload attempt:
the repository listing (`requests.get` + `raise_for_status` + `.json()`)
and the create-build POST (`requests.post` + `raise_for_status`).  An
`Except.error` models a `requests.exceptions.RequestException`. -/
structure LogilicaOracle where
  repoList : Except String (List RepoEntry)
  postOutcome : Except String Unit
deriving Repr

def repositoriesUrl : String := "https://logilica.io/api/import/v1/repositories"

def createBuildUrl (repo_id : String) : String :=
  "https://logilica.io/api/import/v1/ci_build/" ++ repo_id ++ "/create"

def logilicaTokenMissingMsg : String :=
  "LOGILICA_TOKEN environment variable is not set"

def repoNotFoundMsg (repo_full_name : String) : String :=
  "Repository " ++ repo_full_name ++ " not found in Logilica"

/-- The repo-ID lookup loop (app.py lines 297-302): `repo_id` starts as `""`
and the loop breaks at the first entry whose `name` equals `repo_full_name`. -/
def resolve_repo_id (data : List RepoEntry) (repo_full_name : String) : String :=
  match data.find? (fun r => r.name == repo_full_name) with
  | some r => r.id
  | none => ""

/-- `upload_ci_build_data` (app.py lines 265-363).  `token` is the module
global `LOGILICA_TOKEN` (`none` models an unset environment variable).
Returns the effect trace of the call together with its result; every raised
exception (`ValueError` for a falsy token via `if not logilica_token`,
`ValueError` for `if not repo_id`, `RequestException` from either HTTP
call) becomes an `Except.error`. -/
def upload_ci_build_data (token : Option String) (o : LogilicaOracle)
    (a : UploadArgs) : List Effect × Except PyError Unit :=
  -- line 278: breakpoint()
  let tr0 := [Effect.breakpointHit]
  -- lines 280-282: `if not logilica_token: raise ValueError(...)`
  if !pyTruthyOptStr token then
    (tr0, .error (.valueError logilicaTokenMissingMsg))
  else
    -- lines 292-295: GET the repository listing
    let tr1 := tr0 ++ [Effect.httpGet repositoriesUrl]
    match o.repoList with
    | .error msg => (tr1, .error (.requestError msg))
    | .ok data =>
      let repo_id := resolve_repo_id data a.repo_full_name
      -- lines 304-305: `if not repo_id: raise ValueError(...)`
      if repo_id.isEmpty then
        (tr1, .error (.valueError (repoNotFoundMsg a.repo_full_name)))
      else
        -- lines 307-355: build the payload and POST it
        let tr2 := tr1 ++ [Effect.httpPost (createBuildUrl repo_id) (build_upload_payload a)]
        match o.postOutcome with
        | .error msg => (tr2, .error (.requestError msg))
        | .ok _ => (tr2, .ok ())

/-- The result of one retry-loop attempt: `none` when `upload_ci_build_data`
returned normally, `some e` when it raised `e`. -/
def errOf : List Effect × Except PyError Unit → Option PyError
  | (_, .ok _) => none
  | (_, .error e) => some e

/-- The webhook retry loop (app.py lines 119-150), counting form.
`attempt` is the loop variable, `remaining` is `max_retries - attempt`
(so the top-level call uses `remaining = 7`, `attempt = 0`).  Returns
`(attempts made, sleeps performed, propagated error)`: a `break` on
success yields no error; on failure, `attempt < max_retries - 1`
(equivalently `remaining ≠ 1`) sleeps 5 seconds and continues, and the
final attempt re-raises its error. -/
def retryAux (outcome : Nat → Option PyError) (attempt : Nat) :
    Nat → Nat × Nat × Option PyError
  | 0 => (0, 0, none)
  | remaining + 1 =>
    match outcome attempt with
    | none => (1, 0, none)
    | some e =>
      if remaining = 0 then (1, 0, some e)
      else
        let rest := retryAux outcome (attempt + 1) remaining
        (rest.1 + 1, rest.2.1 + 1, rest.2.2)

/-- The webhook retry loop (app.py lines 119-150), trace form: the same
control flow as `retryAux`, accumulating each attempt's effect trace and
the 5-second backoff sleeps. -/
def retryTraceAux (runAttempt : Nat → List Effect × Except PyError Unit)
    (attempt : Nat) : Nat → List Effect × Option PyError
  | 0 => ([], none)
  | remaining + 1 =>
    let (tr, res) := runAttempt attempt
    match res with
    | .ok _ => (tr, none)
    | .error e =>
      if remaining = 0 then (tr, some e)
      else
        let rest := retryTraceAux runAttempt (attempt + 1) remaining
        (tr ++ [Effect.sleep 5] ++ rest.1, rest.2)

/-- The status-path retry loop around `upload_ci_build_data` with
`max_retries = 7` (app.py lines 119-150), counting attempts and sleeps.
`lg i` is the Logilica oracle seen by attempt `i`. -/
def statusUploadCounts (token : Option String) (lg : Nat → LogilicaOracle)
    (a : UploadArgs) : Nat × Nat × Option PyError :=
  retryAux (fun i => errOf (upload_ci_build_data token (lg i) a)) 0 7

/-! ### Webhook handler (`github_webhook`, app.py lines 54-261) -/

/-- An HTTP response produced by the handler. -/
structure HttpResponse where
  status : Nat
  body : String
deriving DecidableEq, Repr

/-- Body of the ping response (app.py line 63): the JSON object
with a `msg` field holding `Pong!`. -/
def pongBody : String := "\x7b\"msg\": \"Pong!\"\x7d"

/-- The parsed fields of a `status`-event payload that the handler reads
(app.py lines 83-94). -/
structure StatusPayload where
  context : String
  state : String
  authorName : String
  authorEmail : String
  authorLogin : String
  target_url : String
deriving DecidableEq, Repr

/-- The fields of `finished.json` the program reads. -/
structure FinishedJson where
  timestamp : Int
  result : String
  metadataRepo : String
deriving DecidableEq, Repr

/-- The fields of `started.json` the program reads.  `repoCommit` is
`none` when the document lacks a `repo-commit` key (app.py line 129
falls back to `"unknown"`). -/
structure StartedJson where
  timestamp : Int
  repoCommit : Option String
deriving DecidableEq, Repr

/-- Outcomes of the two GCS artifact downloads of one status event; an
`Except.error` models a raised download (or JSON decode) exception. -/
structure GcsOracle where
  finished : Except String FinishedJson
  started : Except String StartedJson
deriving Repr

/-- An inbound webhook request: the two headers the handler reads, the raw
body bytes, and the parsed `status` payload (consulted only when the event
discriminator is `status`). -/
structure WebhookRequest where
  eventHeader : Option String
  signatureHeader : Option String
  body : List Nat
  status : StatusPayload
deriving Repr

/-- The allow-listed status contexts (app.py line 84). -/
def ALLOWED_CONTEXTS : List String := ["ci/prow/e2e", "ci/prow/e2e-tests"]

/-- The status-branch relevance filter (app.py lines 84-87):
`context in [...] and state in ("success", "failure")`. -/
def status_event_relevant (p : StatusPayload) : Bool :=
  ALLOWED_CONTEXTS.contains p.context
    && (p.state == "success" || p.state == "failure")

/-- `github_webhook` (app.py lines 54-261).  `hm`/`secret` feed
`verify_signature`; `gcs` and `lg` are the storage and Logilica oracles;
`token` is the `LOGILICA_TOKEN` global.  Flask's `abort(400, ...)` is a
400 response; an uncaught exception is an `Except.error`.  The
`check_run` branch (lines 152-245) is outside this embedding and maps to
`PyError.notModelled`; no theorem below touches it. -/
def github_webhook (hm : String → List Nat → String) (secret : String)
    (token : Option String) (gcs : GcsOracle) (lg : Nat → LogilicaOracle)
    (req : WebhookRequest) : List Effect × Except PyError HttpResponse :=
  -- line 57: event defaults to "ping" when the header is absent
  let event := req.eventHeader.getD "ping"
  -- lines 60-66: ping answered immediately, no signature check
  if event == "ping" then ([], .ok ⟨200, pongBody⟩)
  else
    -- lines 69-71
    match req.signatureHeader with
    | none => ([], .ok ⟨400, "Signature missing"⟩)
    | some sigHeader =>
      -- lines 73-74: an exception raised inside verify_signature (the
      -- compare_digest TypeError) propagates out of the handler
      let tr := [Effect.verifySig]
      match verify_signature hm secret req.body (some sigHeader) with
      | .error e => (tr, .error e)
      | .ok false => (tr, .ok ⟨400, "Invalid signature"⟩)
      | .ok true =>
      -- lines 82-150: the status branch
      if event == "status" then
        let p := req.status
        if status_event_relevant p then
          -- lines 98-102: derive original_id and name_of_payload from the
          -- target URL; `split("/")[-2]` raises IndexError when the URL has
          -- no "/" (before any download happens)
          match (pySplit p.target_url "/").reverse with
          | lastSeg :: prevSeg :: _ =>
            let original_id_status := lastSeg
            let name_of_payload_status :=
              "OpenShift CI " ++ pySplitLast prevSeg "-"
            -- lines 105-107: hardcoded bucket; object path is everything
            -- after the first "/" of the part after the last "/gs/"
            let bucket_name := "test-platform-results"
            let sourcePref := pySplitLast p.target_url "/gs/"
            match pySplitOnce1 sourcePref "/" with
            | none => (tr, .error (.indexError "list index out of range"))
            | some newSourcePref =>
              -- lines 108-112: fetch finished.json (failure propagates)
              let tr := tr ++ [Effect.gcsFetch bucket_name (newSourcePref ++ "/finished.json")]
              match gcs.finished with
              | .error m => (tr, .error (.gcsError m))
              | .ok finished_json =>
                -- lines 113-117: fetch started.json
                let tr := tr ++ [Effect.gcsFetch bucket_name (newSourcePref ++ "/started.json")]
                match gcs.started with
                | .error m => (tr, .error (.gcsError m))
                | .ok started_json =>
                  -- lines 119-150: the retry loop around the upload
                  let a : UploadArgs :=
                    { details_url := p.target_url
                      conclusion := p.state
                      started_at_epoch := started_json.timestamp
                      completed_at_epoch := finished_json.timestamp
                      repo_full_name := finished_json.metadataRepo
                      commit_sha := started_json.repoCommit.getD "unknown"
                      triggered_name := p.authorName
                      triggered_email := p.authorEmail
                      triggered_id := p.authorLogin
                      original_id := original_id_status
                      name_of_payload := name_of_payload_status }
                  let r := retryTraceAux
                    (fun i => upload_ci_build_data token (lg i) a) 0 7
                  (tr ++ r.1,
                    match r.2 with
                    | some e => .error e
                    | none => .ok ⟨204, ""⟩)
          | _ => (tr, .error (.indexError "list index out of range"))
        else
          -- filter not met: falls through to line 248's logging, then 204
          (tr, .ok ⟨204, ""⟩)
      else if event == "check_run" then
        (tr, .error (.notModelled "check_run branch, app.py lines 152-245"))
      else
        -- lines 257-261: unhandled event types are logged, then 204
        (tr, .ok ⟨204, ""⟩)

/-! ### PR backfill driver (`pr_uploader.py`)

`process_pr` (lines 121-185) fetches PR metadata, the commit status, and
the two GCS artifacts, then calls `upload_ci_build_data` with **six
positional arguments** (lines 173-180), although the function defines
eleven parameters, none with a default (app.py lines 265-276).  Python
binds a call's arguments before executing the function body, so that call
raises `TypeError` without entering the body. -/

/-- Number of parameters of `upload_ci_build_data`, all required
(app.py lines 265-276). -/
def uploadRequiredParams : Nat := 11

/-- Number of positional arguments at the `pr_uploader.py` call site
(lines 173-180: `target_url, finished_json, started_json, triggered_name,
triggered_email, triggered_id`). -/
def prUploaderCallArity : Nat := 6

def prTypeErrorMsg : String :=
  "upload_ci_build_data() missing required positional arguments"

/-- Python positional-argument binding for `upload_ci_build_data`: a call
supplying `k` positional arguments binds exactly when `k` equals the
parameter count; otherwise the call raises `TypeError` before the body. -/
def uploadArgBinding (k : Nat) : Option PyError :=
  if k = uploadRequiredParams then none
  else some (.typeError prTypeErrorMsg)

/-- The upload call of `process_pr` (pr_uploader.py lines 173-180): binding
six arguments to eleven required parameters fails, so the call produces a
`TypeError` and no effect of the function body; were binding to succeed,
the body would run (it cannot: `6 ≠ 11`). -/
def pr_upload_attempt : List Effect × Except PyError Unit :=
  match uploadArgBinding prUploaderCallArity with
  | some e => ([], .error e)
  | none => ([], .ok ())

/-- PR metadata read by `process_pr` (`pr_data.get(...)`): each field is
`none` when absent. -/
structure PrData where
  headSha : Option String
  userName : Option String
  userEmail : Option String
  userLogin : Option String
deriving Repr

/-- The commit status returned by `get_pr_status`. -/
structure PrStatus where
  state : String
  target_url : Option String
deriving Repr

/-- The state filter of `process_pr` (pr_uploader.py line 143):
`state in ('success', 'failure')`. -/
def pr_state_relevant (st : PrStatus) : Bool :=
  st.state == "success" || st.state == "failure"

/-- The target-URL filter of `process_pr` (pr_uploader.py line 149):
`not target_url or "/gs/" not in target_url` for a present URL. -/
def pr_target_url_invalid (tu : String) : Bool :=
  tu.isEmpty || !pyContains tu "/gs/"

/-- External data seen by one `process_pr` call: the GitHub PR lookup, the
commit-status lookup, and the two `fetch_gcs_json` downloads (each of
which returns `None` on any error). -/
structure PrOracle where
  prData : Option PrData
  prStatus : Option PrStatus
  finished : Option FinishedJson
  started : Option StartedJson
deriving Repr

/-- `process_pr` (pr_uploader.py lines 121-185).  Returns the effect trace
and the function result; an uncaught exception (the IndexError of line 156
when the `/gs/` tail has no further `/`) is an `Except.error`. -/
def process_pr (o : PrOracle) : List Effect × Except PyError Bool :=
  -- lines 126-129
  match o.prData with
  | none => ([], .ok false)
  | some pr =>
    -- lines 132-135: `if not head_sha`
    if !pyTruthyOptStr pr.headSha then ([], .ok false)
    else
      -- lines 138-141
      match o.prStatus with
      | none => ([], .ok false)
      | some st =>
        -- lines 143-145
        if !pr_state_relevant st then ([], .ok false)
        else
          -- lines 148-151: `if not target_url or "/gs/" not in target_url`
          match st.target_url with
          | none => ([], .ok false)
          | some tu =>
            if pr_target_url_invalid tu then ([], .ok false)
            else
              -- lines 154-156
              let gcs_path := pySplitLast tu "/gs/"
              let bucket_name := pySplitOnce0 gcs_path "/"
              match pySplitOnce1 gcs_path "/" with
              | none => ([], .error (.indexError "list index out of range"))
              | some filePref =>
                -- lines 159-160: both fetches are attempted
                let tr := [Effect.gcsFetch bucket_name (filePref ++ "/finished.json"),
                           Effect.gcsFetch bucket_name (filePref ++ "/started.json")]
                -- lines 162-164
                match o.finished, o.started with
                | some _, some _ =>
                  -- lines 172-185: try the upload; any exception is caught
                  -- and the function returns False
                  (match pr_upload_attempt with
                   | (utr, .error _) => (tr ++ utr, .ok false)
                   | (utr, .ok _) => (tr ++ utr, .ok true))
                | _, _ => (tr, .ok false)

/-! ### Concrete inputs for witness runs and counterexamples -/

/-- The attempt outcomes of an upload run failing twice, then succeeding. -/
def c3Outcome : Nat → Option PyError :=
  fun i => if i < 2 then some (.requestError "boom") else none

/-- Upload arguments of a typical status event, for concrete runs. -/
def sampleUploadArgs : UploadArgs :=
  { details_url := "https://prow/view/gs/test-platform-results/logs/job/123"
    conclusion := "success"
    started_at_epoch := 1678886300
    completed_at_epoch := 1678886400
    repo_full_name := "org/repo"
    commit_sha := "abc"
    triggered_name := "Test User"
    triggered_email := "test@example.com"
    triggered_id := "testuser"
    original_id := "123"
    name_of_payload := "OpenShift CI job" }

/-- A Logilica API in which the repository listing succeeds, lists the
sample repository, and the POST succeeds. -/
def sampleLogilica : LogilicaOracle := ⟨.ok [⟨"r1", "org/repo"⟩], .ok ()⟩

/-- A repository listing whose only entry matches `a/b` but carries the
empty id. -/
def c7Data : List RepoEntry := [⟨"", "a/b"⟩]

/-- Upload arguments whose repository is `a/b`. -/
def c7Args : UploadArgs := { sampleUploadArgs with repo_full_name := "a/b" }

/-- A pending-state status request on an allow-listed context. -/
def pendingStatusRequest : WebhookRequest :=
  { eventHeader := some "status"
    signatureHeader := some "sha1=d"
    body := []
    status :=
      { context := "ci/prow/e2e", state := "pending", authorName := "A"
        authorEmail := "E", authorLogin := "L"
        target_url := "https://prow/view/gs/test-platform-results/logs/job/1" } }

/-- The constant hex-digest HMAC oracle used by concrete runs. -/
def constHm : String → List Nat → String := fun _ _ => "d"

/-- A relevant status event whose target URL names the bucket
`other-bucket` in its `/gs/` segment. -/
def c4Request : WebhookRequest :=
  { eventHeader := some "status"
    signatureHeader := some "sha1=d"
    body := []
    status :=
      { context := "ci/prow/e2e", state := "success", authorName := "A"
        authorEmail := "E", authorLogin := "L"
        target_url := "https://prow/view/gs/other-bucket/logs/job/123" } }

/-- Artifact documents for the C4 run. -/
def c4Gcs : GcsOracle :=
  ⟨.ok ⟨1678886400, "SUCCESS", "org/repo"⟩, .ok ⟨1678886300, some "abc"⟩⟩

/-- The full webhook run on `c4Request`. -/
def c4Run : List Effect × Except PyError HttpResponse :=
  github_webhook constHm "s" (some "t") c4Gcs (fun _ => sampleLogilica)
    c4Request

/-! ## Helper lemmas -/

/-- If every attempt in the window fails, the retry loop makes one attempt
per unit of fuel, sleeps between consecutive attempts, and propagates the
error of the final attempt. -/
lemma retryAux_all_fail (outcome : Nat → Option PyError) :
    ∀ r a, (∀ i, a ≤ i → i < a + r + 1 → (outcome i).isSome) →
      retryAux outcome a (r + 1) = (r + 1, r, outcome (a + r)) := by
  intro r
  induction r with
  | zero =>
    intro a h
    have ha : (outcome a).isSome := h a le_rfl (by omega)
    obtain ⟨e, he⟩ := Option.isSome_iff_exists.mp ha
    simp [retryAux, he]
  | succ r ih =>
    intro a h
    have ha : (outcome a).isSome := h a le_rfl (by omega)
    obtain ⟨e, he⟩ := Option.isSome_iff_exists.mp ha
    have hr := ih (a + 1) (fun i h1 h2 => h i (by omega) (by omega))
    simp only [retryAux, he]
    simp only [retryAux] at hr
    rw [hr, show a + 1 + r = a + (r + 1) from by omega]
    simp

/-- If the first `N` attempts fail and attempt `N` (0-based) succeeds, the
retry loop makes `N + 1` attempts with `N` sleeps and reports no error. -/
lemma retryAux_succeeds (outcome : Nat → Option PyError) :
    ∀ N a r, N < r → (∀ i, a ≤ i → i < a + N → (outcome i).isSome) →
      outcome (a + N) = none →
      retryAux outcome a r = (N + 1, N, none) := by
  intro N
  induction N with
  | zero =>
    intro a r hr hfail hsucc
    obtain ⟨r', rfl⟩ : ∃ r', r = r' + 1 := ⟨r - 1, by omega⟩
    simp only [Nat.add_zero] at hsucc
    simp [retryAux, hsucc]
  | succ N ih =>
    intro a r hr hfail hsucc
    obtain ⟨r', rfl⟩ : ∃ r', r = r' + 1 := ⟨r - 1, by omega⟩
    have ha : (outcome a).isSome := hfail a le_rfl (by omega)
    obtain ⟨e, he⟩ := Option.isSome_iff_exists.mp ha
    have hrec := ih (a + 1) r' (by omega)
      (fun i h1 h2 => hfail i (by omega) (by omega))
      (by rw [show a + 1 + N = a + (N + 1) by omega]; exact hsucc)
    simp only [retryAux, he]
    rw [if_neg (by omega), hrec]

/-- The effect trace of one `upload_ci_build_data` call has one of three
shapes, each beginning with the breakpoint trap: the token check fails
right after it, or the repo lookup GET is the last effect, or the
create-build POST follows the GET. -/
lemma upload_trace_shape (token : Option String) (o : LogilicaOracle)
    (a : UploadArgs) :
    (upload_ci_build_data token o a).1 = [Effect.breakpointHit]
    ∨ (upload_ci_build_data token o a).1
        = [Effect.breakpointHit, Effect.httpGet repositoriesUrl]
    ∨ ∃ u b, (upload_ci_build_data token o a).1
        = [Effect.breakpointHit, Effect.httpGet repositoriesUrl, Effect.httpPost u b] := by
  unfold upload_ci_build_data
  cases ht : pyTruthyOptStr token
  · simp
  · cases hrl : o.repoList with
    | error m => simp
    | ok data =>
      cases hid : (resolve_repo_id data a.repo_full_name).isEmpty
      · cases hp : o.postOutcome <;> simp [hid, hp]
      · simp [hid]

/-- No effect of an `upload_ci_build_data` call is a GCS fetch. -/
lemma upload_trace_no_gcsFetch (token : Option String) (o : LogilicaOracle)
    (a : UploadArgs) :
    ∀ e ∈ (upload_ci_build_data token o a).1, e.isGcsFetch = false := by
  intro e he
  rcases upload_trace_shape token o a with h | h | ⟨u, b, h⟩ <;> rw [h] at he <;>
    simp only [List.mem_cons, List.mem_singleton, List.not_mem_nil, or_false] at he
  · subst he; rfl
  · rcases he with rfl | rfl <;> rfl
  · rcases he with rfl | rfl | rfl <;> rfl

/-- No effect of the retry loop around `upload_ci_build_data` is a GCS
fetch (the backoff sleeps are not fetches either). -/
lemma retryTraceAux_no_gcsFetch (token : Option String)
    (lg : Nat → LogilicaOracle) (a : UploadArgs) :
    ∀ fuel attempt,
      ∀ e ∈ (retryTraceAux (fun i => upload_ci_build_data token (lg i) a)
              attempt fuel).1, e.isGcsFetch = false := by
  intro fuel
  induction fuel with
  | zero => intro attempt e he; simp [retryTraceAux] at he
  | succ fuel ih =>
    intro attempt e he
    rw [retryTraceAux] at he
    rcases hrun : upload_ci_build_data token (lg attempt) a with ⟨tr, res⟩
    rw [hrun] at he
    cases res with
    | ok _ =>
      simp only at he
      exact upload_trace_no_gcsFetch token (lg attempt) a e (by rw [hrun]; exact he)
    | error err =>
      simp only at he
      by_cases hf : fuel = 0
      · rw [if_pos hf] at he
        exact upload_trace_no_gcsFetch token (lg attempt) a e (by rw [hrun]; exact he)
      · rw [if_neg hf] at he
        simp only [List.mem_append, List.mem_singleton] at he
        rcases he with (he | rfl) | he
        · exact upload_trace_no_gcsFetch token (lg attempt) a e (by rw [hrun]; exact he)
        · rfl
        · exact ih (attempt + 1) e he

/-! ## Claim theorems -/

/-! ### Claim C3 -/

/-- C3: In the upload retry loop, for every failure count `N < 7`, if the
upload fails `N` times and then succeeds, exactly `N + 1` attempts are made
and exactly `N` fixed backoff sleeps occur; if all 7 attempts fail, exactly
7 attempts and 6 sleeps occur and the last attempt's error is propagated
to the caller rather than swallowed. -/
theorem upload_retry_counts (outcome : Nat → Option PyError) :
    (∀ N, N < 7 → (∀ i, i < N → (outcome i).isSome) → outcome N = none →
      retryAux outcome 0 7 = (N + 1, N, none)) ∧
    ((∀ i, i < 7 → (outcome i).isSome) →
      retryAux outcome 0 7 = (7, 6, outcome 6)) := by
  constructor
  · intro N hN hfail hsucc
    exact retryAux_succeeds outcome N 0 7 hN
      (fun i _ h2 => hfail i (by omega)) (by simpa using hsucc)
  · intro hfail
    have h := retryAux_all_fail outcome 6 0 (fun i _ h2 => hfail i (by omega))
    simpa using h

/-- Witness for C3: two failures then success make 3 attempts and 2 sleeps. -/
theorem upload_retry_counts_witness : retryAux c3Outcome 0 7 = (3, 2, none) :=
  (upload_retry_counts c3Outcome).1 2 (by omega)
    (fun i hi => by interval_cases i <;> simp [c3Outcome])
    (by simp [c3Outcome])

/-! ### Claim C1 -/

/-- C1 counterexample: with `LOGILICA_TOKEN` unset at the point of use, the
status-path retry loop does not fail immediately — it performs all 7
attempts and 6 backoff sleeps before the ValueError propagates, so the
failure does consume the retry budget. -/
theorem missing_token_retried_counterexample :
    statusUploadCounts none (fun _ => sampleLogilica) sampleUploadArgs
      = (7, 6, some (.valueError logilicaTokenMissingMsg)) ∧
    (statusUploadCounts none (fun _ => sampleLogilica) sampleUploadArgs).1 ≠ 1 :=
  ⟨rfl, by decide⟩

/-- C1 amended: a falsy `LOGILICA_TOKEN` (unset or empty) makes every
attempt raise the ValueError; the retry loop treats it like any other
failure, consuming all 7 attempts with 6 sleeps, and then propagates it. -/
theorem missing_token_consumes_all_attempts (token : Option String)
    (lg : Nat → LogilicaOracle) (a : UploadArgs)
    (h : pyTruthyOptStr token = false) :
    statusUploadCounts token lg a
      = (7, 6, some (.valueError logilicaTokenMissingMsg)) := by
  have hout : ∀ i : Nat, errOf (upload_ci_build_data token (lg i) a)
      = some (.valueError logilicaTokenMissingMsg) := fun i => by
    unfold upload_ci_build_data errOf
    simp [h]
  unfold statusUploadCounts
  have hall := retryAux_all_fail
    (fun i => errOf (upload_ci_build_data token (lg i) a)) 6 0
    (fun i _ _ => by simp [hout i])
  simpa [hout 6] using hall

/-- Witness for C1 amended, at the empty-string token (also falsy). -/
theorem missing_token_consumes_all_attempts_witness :
    statusUploadCounts (some "") (fun _ => sampleLogilica) sampleUploadArgs
      = (7, 6, some (.valueError logilicaTokenMissingMsg)) :=
  missing_token_consumes_all_attempts (some "") _ _ rfl

/-! ### Claim C2 -/

/-- C2 counterexample: the `pr_uploader.py` upload invocation fails
argument binding (6 arguments against 11 required parameters) with a
TypeError, so that call site executes no breakpoint trap at all. -/
theorem pr_uploader_call_no_breakpoint_counterexample :
    pr_upload_attempt.1.count Effect.breakpointHit = 0 ∧
    pr_upload_attempt.2 = .error (.typeError prTypeErrorMsg) :=
  ⟨rfl, rfl⟩

/-- C2 amended: every run of the `upload_ci_build_data` body — as invoked
with all eleven arguments by the webhook status path, the webhook
check_run path and the prow crawler — emits the breakpoint trap as its
very first effect, before the token check and before any HTTP call; the
`pr_uploader.py` call instead raises TypeError at argument binding and
never enters the body (so it, too, performs no upload without the trap). -/
theorem breakpoint_precedes_all_upload_work (token : Option String)
    (o : LogilicaOracle) (a : UploadArgs) :
    (upload_ci_build_data token o a).1.head? = some Effect.breakpointHit ∧
    pr_upload_attempt = ([], .error (.typeError prTypeErrorMsg)) := by
  refine ⟨?_, rfl⟩
  rcases upload_trace_shape token o a with h | h | ⟨u, b, h⟩ <;> rw [h] <;> rfl

/-! ### Claim C5 -/

/-- C5 counterexample: `verify_signature` does not return a boolean for
every header value — the header `sha1=é` splits into `["sha1", "é"]`,
passes the algorithm check, and reaches `hmac.compare_digest`, which
raises `TypeError` on the non-ASCII signature part instead of returning
false (the HMAC hex digest itself is ASCII). -/
theorem verify_signature_non_ascii_raises_counterexample :
    verify_signature (fun _ _ => "aa") "s" [] (some "sha1=é")
      = .error (.typeError compareDigestTypeErrorMsg) ∧
    isAsciiStr "é" = false := ⟨rfl, rfl⟩

/-- C5 amended: given the process-configured shared secret,
`verify_signature` returns false — and raises nothing — when the header is
absent, when the header does not split into exactly two parts on `=`,
when the algorithm part is not `sha1`, and when an ASCII digest does not
match the (ASCII) HMAC hex digest; but when the algorithm part is `sha1`
and the signature part contains a non-ASCII character,
`hmac.compare_digest` raises `TypeError` rather than returning false, so
the function is not exception-free for every header value. -/
theorem verify_signature_false_cases (hm : String → List Nat → String)
    (secret : String) (payload : List Nat) (header : Option String) :
    (header = none → verify_signature hm secret payload header = .ok false) ∧
    (∀ h, header = some h → (pySplit h "=").length ≠ 2 →
      verify_signature hm secret payload header = .ok false) ∧
    (∀ h alg dig, header = some h → pySplit h "=" = [alg, dig] →
      alg ≠ "sha1" → verify_signature hm secret payload header = .ok false) ∧
    (∀ h dig, header = some h → pySplit h "=" = ["sha1", dig] →
      isAsciiStr (hm secret payload) = true → isAsciiStr dig = true →
      hm secret payload ≠ dig →
      verify_signature hm secret payload header = .ok false) ∧
    (∀ h dig, header = some h → pySplit h "=" = ["sha1", dig] →
      isAsciiStr (hm secret payload) = true → isAsciiStr dig = false →
      verify_signature hm secret payload header
        = .error (.typeError compareDigestTypeErrorMsg)) := by
  refine ⟨?_, ?_, ?_, ?_, ?_⟩
  · rintro rfl; rfl
  · rintro h rfl hlen
    show (match pySplit h "=" with
      | [sha_name, signature] =>
        if sha_name ≠ "sha1" then Except.ok false
        else compare_digest (hm secret payload) signature
      | _ => Except.ok false) = Except.ok false
    cases hs : pySplit h "=" with
    | nil => rfl
    | cons a tl =>
      cases tl with
      | nil => rfl
      | cons b tl2 =>
        cases tl2 with
        | nil => exact absurd (by rw [hs]; rfl) hlen
        | cons c tl3 => rfl
  · rintro h alg dig rfl hsplit halg
    show (match pySplit h "=" with
      | [sha_name, signature] =>
        if sha_name ≠ "sha1" then Except.ok false
        else compare_digest (hm secret payload) signature
      | _ => Except.ok false) = Except.ok false
    rw [hsplit]
    simp [halg]
  · rintro h dig rfl hsplit ha1 ha2 hdig
    show (match pySplit h "=" with
      | [sha_name, signature] =>
        if sha_name ≠ "sha1" then Except.ok false
        else compare_digest (hm secret payload) signature
      | _ => Except.ok false) = Except.ok false
    rw [hsplit]
    simp [compare_digest, ha1, ha2, hdig]
  · rintro h dig rfl hsplit ha1 ha2
    show (match pySplit h "=" with
      | [sha_name, signature] =>
        if sha_name ≠ "sha1" then Except.ok false
        else compare_digest (hm secret payload) signature
      | _ => Except.ok false)
      = Except.error (.typeError compareDigestTypeErrorMsg)
    rw [hsplit]
    simp [compare_digest, ha1, ha2]

/-- Witness for C5 amended: a well-formed `sha1=` header with a wrong
ASCII digest yields false. -/
theorem verify_signature_false_cases_witness :
    verify_signature (fun _ _ => "aa") "s" [] (some "sha1=bb") = .ok false :=
  (verify_signature_false_cases (fun _ _ => "aa") "s" [] (some "sha1=bb")).2.2.2.1
    "sha1=bb" "bb" rfl (by decide) (by decide) (by decide) (by decide)

/-! ### Claim C6 -/

/-- Every `process_pr` run returns a result other than `True`, and every
effect it performs is a GCS fetch (in particular, never a POST). -/
lemma process_pr_shape (o : PrOracle) :
    (process_pr o).2 ≠ .ok true ∧
    ∀ e ∈ (process_pr o).1, e.isGcsFetch = true := by
  have hpr : pr_upload_attempt = ([], .error (.typeError prTypeErrorMsg)) := rfl
  unfold process_pr
  cases hd : o.prData with
  | none => exact ⟨by simp [hd], by simp [hd]⟩
  | some pr =>
    cases ht : pyTruthyOptStr pr.headSha with
    | false => exact ⟨by simp [hd, ht], by simp [hd, ht]⟩
    | true =>
      cases hps : o.prStatus with
      | none => exact ⟨by simp [hd, ht, hps], by simp [hd, ht, hps]⟩
      | some st =>
        cases hstate : pr_state_relevant st with
        | false =>
          exact ⟨by simp [hd, ht, hps, hstate], by simp [hd, ht, hps, hstate]⟩
        | true =>
          cases htu : st.target_url with
          | none =>
            exact ⟨by simp [hd, ht, hps, hstate, htu],
              by simp [hd, ht, hps, hstate, htu]⟩
          | some tu =>
            cases hturl : pr_target_url_invalid tu with
            | true =>
              exact ⟨by simp [hd, ht, hps, hstate, htu, hturl],
                by simp [hd, ht, hps, hstate, htu, hturl]⟩
            | false =>
              cases hsp : pySplitOnce1 (pySplitLast tu "/gs/") "/" with
              | none =>
                exact ⟨by simp [hd, ht, hps, hstate, htu, hturl, hsp],
                  by simp [hd, ht, hps, hstate, htu, hturl, hsp]⟩
              | some filePref =>
                cases hf : o.finished with
                | none =>
                  cases hs2 : o.started <;>
                    exact ⟨by simp [hd, ht, hps, hstate, htu, hturl, hsp, hf,
                        hs2],
                      by simp [hd, ht, hps, hstate, htu, hturl, hsp, hf, hs2,
                        Effect.isGcsFetch]⟩
                | some fin =>
                  cases hs2 : o.started with
                  | none =>
                    exact ⟨by simp [hd, ht, hps, hstate, htu, hturl, hsp, hf,
                        hs2],
                      by simp [hd, ht, hps, hstate, htu, hturl, hsp, hf, hs2,
                        Effect.isGcsFetch]⟩
                  | some st2 =>
                    exact ⟨by simp [hd, ht, hps, hstate, htu, hturl, hsp, hf,
                        hs2, hpr],
                      by simp [hd, ht, hps, hstate, htu, hturl, hsp, hf, hs2,
                        hpr, Effect.isGcsFetch]⟩

/-- C6: every `process_pr` call that reaches the upload step invokes
`upload_ci_build_data` with 6 positional arguments although the function
requires 11, so the call raises TypeError before any upload occurs; the
exception is caught and `process_pr` returns `False` — for every PR, the
PR backfill driver never completes a successful upload and never issues a
create-build POST. -/
theorem pr_backfill_never_uploads (o : PrOracle) :
    prUploaderCallArity = 6 ∧ uploadRequiredParams = 11 ∧
    pr_upload_attempt = ([], .error (.typeError prTypeErrorMsg)) ∧
    (process_pr o).2 ≠ .ok true ∧
    (process_pr o).1.all (fun e => !e.isHttpPost) = true := by
  refine ⟨rfl, rfl, rfl, (process_pr_shape o).1, ?_⟩
  rw [List.all_eq_true]
  intro e he
  have hg := (process_pr_shape o).2 e he
  cases e <;> simp_all [Effect.isGcsFetch, Effect.isHttpPost]

/-! ### Claim C7 -/

/-- C7 counterexample: an entry matching the repository name exists in the
listing, yet the upload fails with the RepoNotFound ValueError (because
the matched id is the falsy empty string) and no POST is issued — the
claim allows that failure only when no entry matches. -/
theorem repo_resolution_empty_id_counterexample :
    (c7Data.find? (fun r => r.name == "a/b")).isSome = true ∧
    (upload_ci_build_data (some "tok") ⟨.ok c7Data, .ok ()⟩ c7Args).2
      = .error (.valueError (repoNotFoundMsg "a/b")) ∧
    (upload_ci_build_data (some "tok") ⟨.ok c7Data, .ok ()⟩ c7Args).1.all
      (fun e => !e.isHttpPost) = true := by
  exact ⟨rfl, rfl, rfl⟩

/-- C7 amended: repo-ID resolution selects the first listing entry whose
name exactly equals `repo_full_name`; when such an entry exists and its id
is non-empty, the create-build POST for that id is issued; when no entry
matches — or the first matching entry's id is the empty string, which the
falsiness check `if not repo_id` conflates with absence — the attempt
fails with the distinguishable RepoNotFound ValueError and no POST is
issued. -/
theorem repo_resolution_first_match (token : Option String)
    (o : LogilicaOracle) (a : UploadArgs) (data : List RepoEntry)
    (ht : pyTruthyOptStr token = true) (hd : o.repoList = .ok data) :
    (∀ r, data.find? (fun x => x.name == a.repo_full_name) = some r →
      r.id ≠ "" →
      Effect.httpPost (createBuildUrl r.id) (build_upload_payload a)
        ∈ (upload_ci_build_data token o a).1) ∧
    (data.find? (fun x => x.name == a.repo_full_name) = none →
      (upload_ci_build_data token o a).2
          = .error (.valueError (repoNotFoundMsg a.repo_full_name)) ∧
      (upload_ci_build_data token o a).1.all (fun e => !e.isHttpPost) = true) ∧
    (∀ r, data.find? (fun x => x.name == a.repo_full_name) = some r →
      r.id = "" →
      (upload_ci_build_data token o a).2
          = .error (.valueError (repoNotFoundMsg a.repo_full_name)) ∧
      (upload_ci_build_data token o a).1.all (fun e => !e.isHttpPost) = true) := by
  have hemp : ("" : String).isEmpty = true := rfl
  refine ⟨?_, ?_, ?_⟩
  · intro r hfind hid
    unfold upload_ci_build_data resolve_repo_id
    have hne : r.id.isEmpty = false := by
      cases hi : r.id.isEmpty
      · rfl
      · exact absurd ((String.isEmpty_iff r.id).mp hi) hid
    simp only [ht, hd, hfind, hne, Bool.not_true, Bool.false_eq_true, if_false]
    cases o.postOutcome <;> simp
  · intro hfind
    unfold upload_ci_build_data resolve_repo_id
    simp [ht, hd, hfind, hemp, Effect.isHttpPost]
  · intro r hfind hid
    unfold upload_ci_build_data resolve_repo_id
    simp [ht, hd, hfind, hid, hemp, Effect.isHttpPost]

/-- Witness for C7 amended: with a listing containing `a/b` under id `r1`,
the POST to the create-build endpoint for `r1` is issued. -/
theorem repo_resolution_first_match_witness :
    Effect.httpPost (createBuildUrl "r1") (build_upload_payload c7Args)
      ∈ (upload_ci_build_data (some "tok")
          ⟨.ok [⟨"r1", "a/b"⟩], .ok ()⟩ c7Args).1 :=
  (repo_resolution_first_match (some "tok") ⟨.ok [⟨"r1", "a/b"⟩], .ok ()⟩
      c7Args [⟨"r1", "a/b"⟩] rfl rfl).1
    ⟨"r1", "a/b"⟩ (by decide) (by decide)

/-! ### Claim C8 -/

/-- C8: for every argument record, the built upload payload is a list of
exactly one object whose build level, `stages[0]`, and `stages[0].jobs[0]`
all carry the same name, the same startedAt, the same completedAt, status
`Completed`, and the same conclusion obtained by capitalizing the input
conclusion (first letter upper, rest lower — `pyCapitalize` — whatever the
input casing); `repoUrl` is `https://github.com/<repoFullName>`,
`isDeployment` is true, and `pullRequestUrls` is exactly the details URL. -/
theorem upload_payload_structure (a : UploadArgs) :
    ∃ b st j,
      build_upload_payload a = [b] ∧ b.stages = [st] ∧ st.jobs = [j] ∧
      b.name = a.name_of_payload ∧ st.name = a.name_of_payload ∧
        j.name = a.name_of_payload ∧
      b.startedAt = a.started_at_epoch ∧ st.startedAt = a.started_at_epoch ∧
        j.startedAt = a.started_at_epoch ∧
      b.completedAt = a.completed_at_epoch ∧
        st.completedAt = a.completed_at_epoch ∧
        j.completedAt = a.completed_at_epoch ∧
      b.status = "Completed" ∧ st.status = "Completed" ∧
        j.status = "Completed" ∧
      b.conclusion = pyCapitalize a.conclusion ∧
        st.conclusion = pyCapitalize a.conclusion ∧
        j.conclusion = pyCapitalize a.conclusion ∧
      b.repoUrl = "https://github.com/" ++ a.repo_full_name ∧
      b.isDeployment = true ∧
      b.pullRequestUrls = [a.details_url] := by
  exact ⟨_, _, _, rfl, rfl, rfl, rfl, rfl, rfl, rfl, rfl, rfl, rfl, rfl,
    rfl, rfl, rfl, rfl, rfl, rfl, rfl, rfl, rfl, rfl⟩

/-! ### Claim C9 -/

/-- The Boolean status filter agrees with its propositional reading. -/
lemma status_event_relevant_iff (p : StatusPayload) :
    status_event_relevant p = true ↔
      p.context ∈ ALLOWED_CONTEXTS ∧
        (p.state = "success" ∨ p.state = "failure") := by
  simp [status_event_relevant]

/-- C9: for every signature-valid `status` event whose state is not
`success`/`failure` or whose context is not in the allow-list, the handler
performs zero artifact fetches and zero upload effects — its whole trace
is the one signature verification — and returns 204 with an empty body as
a silent success. -/
theorem irrelevant_status_is_silent_noop (hm : String → List Nat → String)
    (secret : String) (token : Option String) (gcs : GcsOracle)
    (lg : Nat → LogilicaOracle) (req : WebhookRequest) (sigHeader : String)
    (hev : req.eventHeader = some "status")
    (hsig : req.signatureHeader = some sigHeader)
    (hver : verify_signature hm secret req.body (some sigHeader) = .ok true)
    (hirrel : ¬(req.status.context ∈ ALLOWED_CONTEXTS ∧
      (req.status.state = "success" ∨ req.status.state = "failure"))) :
    github_webhook hm secret token gcs lg req
      = ([Effect.verifySig], .ok ⟨204, ""⟩) := by
  have hrel : status_event_relevant req.status = false := by
    cases hr : status_event_relevant req.status
    · rfl
    · exact absurd ((status_event_relevant_iff req.status).mp hr) hirrel
  unfold github_webhook
  simp [hev, hsig, hver, hrel]

/-- Witness for C9: a pending status event yields the one-verification
trace and a 204 response. -/
theorem irrelevant_status_is_silent_noop_witness :
    github_webhook constHm "s" (some "t")
        ⟨.error "unused", .error "unused"⟩ (fun _ => sampleLogilica)
        pendingStatusRequest
      = ([Effect.verifySig], .ok ⟨204, ""⟩) :=
  irrelevant_status_is_silent_noop constHm "s" (some "t")
    ⟨.error "unused", .error "unused"⟩ (fun _ => sampleLogilica)
    pendingStatusRequest "sha1=d" rfl rfl rfl (by decide)

/-! ### Claim C10 -/

/-- C10: a webhook POST with no `X-GitHub-Event` header is treated exactly
like a ping event, for every request body and signature header (including
unsigned ones): the handler returns 200 with the Pong body, performs no
signature verification (an empty effect trace), and its output is
identical to the same request with the header set to `ping`. -/
theorem missing_event_header_is_ping (hm : String → List Nat → String)
    (secret : String) (token : Option String) (gcs : GcsOracle)
    (lg : Nat → LogilicaOracle) (req : WebhookRequest)
    (h : req.eventHeader = none) :
    github_webhook hm secret token gcs lg req = ([], .ok ⟨200, pongBody⟩) ∧
    github_webhook hm secret token gcs lg req
      = github_webhook hm secret token gcs lg
          { req with eventHeader := some "ping" } := by
  constructor <;> (unfold github_webhook; simp [h])

/-- Witness for C10: an unsigned body with no event header gets the Pong
response. -/
theorem missing_event_header_is_ping_witness :
    github_webhook constHm "s" none
        ⟨.error "unused", .error "unused"⟩ (fun _ => sampleLogilica)
        { eventHeader := none, signatureHeader := none, body := [1, 2]
          status := pendingStatusRequest.status }
      = ([], .ok ⟨200, pongBody⟩) :=
  (missing_event_header_is_ping constHm "s" none
    ⟨.error "unused", .error "unused"⟩ (fun _ => sampleLogilica)
    { eventHeader := none, signatureHeader := none, body := [1, 2]
      status := pendingStatusRequest.status } rfl).1

/-! ### Claim C4 -/

/-- C4 counterexample: the relevant status event's URL names bucket
`other-bucket` after `/gs/`, yet both artifact fetches of the run read
from the hardcoded bucket `test-platform-results`, which differs from the
bucket named in the URL. -/
theorem status_fetch_bucket_counterexample :
    pySplitOnce0 (pySplitLast c4Request.status.target_url "/gs/") "/"
      = "other-bucket" ∧
    c4Run.1.filter Effect.isGcsFetch
      = [Effect.gcsFetch "test-platform-results" "logs/job/123/finished.json",
         Effect.gcsFetch "test-platform-results" "logs/job/123/started.json"] ∧
    ("test-platform-results" : String) ≠ "other-bucket" :=
  ⟨by decide, by decide, by decide⟩

/-- C4 amended: for every relevant status event whose target URL contains
a `/gs/<bucket>/<rest>` segment, the artifact fetches read from the
hardcoded bucket `test-platform-results` — not the bucket named in the
URL — at object paths `<rest>/finished.json` and `<rest>/started.json`,
`<rest>` being the part of the `/gs/` tail after its first component. -/
theorem status_fetch_uses_hardcoded_bucket (hm : String → List Nat → String)
    (secret : String) (token : Option String) (gcs : GcsOracle)
    (lg : Nat → LogilicaOracle) (req : WebhookRequest) (sigHeader : String)
    (rest lastSeg prevSeg : String) (moreSegs : List String)
    (hev : req.eventHeader = some "status")
    (hsig : req.signatureHeader = some sigHeader)
    (hver : verify_signature hm secret req.body (some sigHeader) = .ok true)
    (hrel : status_event_relevant req.status = true)
    (hsegs : (pySplit req.status.target_url "/").reverse
      = lastSeg :: prevSeg :: moreSegs)
    (hrest : pySplitOnce1 (pySplitLast req.status.target_url "/gs/") "/"
      = some rest) :
    Effect.gcsFetch "test-platform-results" (rest ++ "/finished.json")
        ∈ (github_webhook hm secret token gcs lg req).1 ∧
    ∀ b p,
      Effect.gcsFetch b p ∈ (github_webhook hm secret token gcs lg req).1 →
      b = "test-platform-results" ∧
      (p = rest ++ "/finished.json" ∨ p = rest ++ "/started.json") := by
  unfold github_webhook
  cases hgf : gcs.finished with
  | error m =>
    simp only [hev, hsig, hver, hrel, hsegs, hrest, hgf]
    constructor
    · simp [hver]
    · intro b p hmem
      simp [hver] at hmem
      exact ⟨hmem.1, Or.inl hmem.2⟩
  | ok fin =>
    cases hgs : gcs.started with
    | error m =>
      simp only [hev, hsig, hver, hrel, hsegs, hrest, hgf, hgs]
      constructor
      · simp [hver]
      · intro b p hmem
        simp [hver] at hmem
        rcases hmem with ⟨rfl, rfl⟩ | ⟨rfl, rfl⟩
        · exact ⟨rfl, Or.inl rfl⟩
        · exact ⟨rfl, Or.inr rfl⟩
    | ok stj =>
      simp only [hev, hsig, hver, hrel, hsegs, hrest, hgf, hgs]
      constructor
      · simp [hver]
      · intro b p hmem
        simp [hver] at hmem
        rcases hmem with ⟨rfl, rfl⟩ | ⟨rfl, rfl⟩ | hretry
        · exact ⟨rfl, Or.inl rfl⟩
        · exact ⟨rfl, Or.inr rfl⟩
        · exact absurd (retryTraceAux_no_gcsFetch token lg _ 7 0 _ hretry)
            (by simp [Effect.isGcsFetch])

/-- Witness for C4 amended: on the `c4Request` run, the finished-artifact
fetch reads `logs/job/123/finished.json` from the hardcoded bucket. -/
theorem status_fetch_uses_hardcoded_bucket_witness :
    Effect.gcsFetch "test-platform-results" ("logs/job/123" ++ "/finished.json")
      ∈ c4Run.1 :=
  (status_fetch_uses_hardcoded_bucket constHm "s" (some "t") c4Gcs
    (fun _ => sampleLogilica) c4Request "sha1=d" "logs/job/123" "123" "job"
    ["logs", "other-bucket", "gs", "view", "prow", "", "https:"]
    rfl rfl rfl (by decide) (by decide) (by decide)).1

end DataIngestion
